import Mathlib

/-!
Shallow embedding of `metrics/sources/summary/client.go` from the
metrics-server repository: a Kubelet summary-metrics HTTP client.

The embedding keeps the names of the source where Lean allows it:
`kubeletClient` becomes `KubeletClient`, `GetSummary`,
`postRequestAndGetValue`, `ErrNotFound` (as the `GoError.notFound`
variant) and `IsNotFoundError` keep their names.

External collaborators are passed as function arguments:
  * the `Do` method of the HTTP client becomes `doReq : Request → Except GoError Response`
    (an `Except.error` models a transport failure where no response was
    obtained; an `Except.ok` models a received response);
  * `json.Unmarshal(body, value)` writes through the `value` out-pointer
    and returns an optional error; it becomes
    `unmarshal : Summary → String → Summary × Option String`, taking the
    current content of the pointed-to struct and the body and returning
    the new content together with the optional parse-error message
    (rendered by `%v`). On failure `Unmarshal` may leave the struct
    partially written, which this in/out shape represents faithfully.

Go `error` interface values are modelled by `Option GoError` (`none` is
the nil error); reading the response body (`ioutil.ReadAll`) is modelled
by the `bodyRead : Except String String` field of `Response`, an error
being a failed read and an `ok` being the fully read body.
-/

/-- Hexadecimal digit character (lowercase), as used by the Go `\xHH`
escape. -/
def hexDigitChar (n : Nat) : Char :=
  if n < 10 then Char.ofNat (48 + n) else Char.ofNat (87 + n)

/-- Model of Go `fmt` `%q` (strconv.Quote) for one character, exact on
ASCII: escapes the double quote and the backslash, uses the named
escapes for the seven control characters that have one, renders every
other non-printable ASCII character (below 0x20, or 0x7f) as `\xHH`,
and keeps printable characters verbatim. Runes at 0x80 and above are
kept verbatim, which matches Go for printable runes; Go renders
non-printable non-ASCII runes with `\u` escapes, a range no theorem
below relies on (`goQuotePlain` is confined to ASCII). -/
def goQuoteChar (c : Char) : String :=
  if c = '"' then "\\\""
  else if c = '\\' then "\\\\"
  else if c = Char.ofNat 7 then "\\a"
  else if c = Char.ofNat 8 then "\\b"
  else if c = Char.ofNat 12 then "\\f"
  else if c = '\n' then "\\n"
  else if c = '\r' then "\\r"
  else if c = '\t' then "\\t"
  else if c = Char.ofNat 11 then "\\v"
  else if c.toNat < 32 ∨ c.toNat = 127 then
    "\\x" ++ (hexDigitChar (c.toNat / 16)).toString ++
      (hexDigitChar (c.toNat % 16)).toString
  else Char.toString c

/-- Quoting helper: escapes every character of the list in order. -/
def goQuoteAux : List Char → String
  | [] => ""
  | c :: cs => goQuoteChar c ++ goQuoteAux cs

/-- Model of Go `fmt` `%q` on a string: the quoted form with escapes. -/
def goQuote (s : String) : String :=
  "\"" ++ goQuoteAux s.data ++ "\""

/-- Characters that Go `%q` keeps verbatim: printable ASCII other than
the double quote and the backslash. -/
def goQuotePlain (c : Char) : Prop :=
  32 ≤ c.toNat ∧ c.toNat ≤ 126 ∧ c ≠ '"' ∧ c ≠ '\\'

instance (c : Char) : Decidable (goQuotePlain c) := by
  unfold goQuotePlain; infer_instance

/-- Model of Go `error` values produced or consumed by this client.
`notFound` is the `*ErrNotFound` concrete type (field `endpoint`);
`errorf` is an error built by `fmt.Errorf` without `%w` (carrying only
its message); `wrapped` is an error built by `fmt.Errorf` with `%w`
(its own message plus the wrapped inner error), used to express what the
type assertion in `IsNotFoundError` does NOT unwrap. -/
inductive GoError where
  | notFound (endpoint : String)
  | errorf (msg : String)
  | wrapped (msg : String) (inner : GoError)
  deriving DecidableEq, Repr

/-- Embedding of `(*ErrNotFound).Error`, `fmt.Sprintf("%q not found", endpoint)`,
extended to the other variants by their carried messages. -/
def GoError.message : GoError → String
  | .notFound endpoint => goQuote endpoint ++ " not found"
  | .errorf msg => msg
  | .wrapped msg _ => msg

/-- Embedding of `IsNotFoundError`: the Go type assertion
`err.(*ErrNotFound)` succeeds exactly on a non-nil error whose dynamic
type is `*ErrNotFound`; it does not unwrap, and it is false on nil. -/
def IsNotFoundError : Option GoError → Bool
  | some (GoError.notFound _) => true
  | _ => false

/-- Minimal embedding of the node part of `stats.Summary`
(`k8s.io/kubernetes/pkg/kubelet/apis/stats/v1alpha1`): the claims only
inspect the node name; the rest of the payload is opaque to the client. -/
structure NodeStats where
  nodeName : String
  deriving DecidableEq, Repr

/-- Minimal embedding of `stats.Summary`. -/
structure Summary where
  node : NodeStats
  deriving DecidableEq, Repr

/-- Zero value of the `stats.Summary` struct, `&stats.Summary{}`. -/
def Summary.zero : Summary := { node := { nodeName := "" } }

/-- Embedding of `net/url.URL` restricted to the fields this client sets
(`Scheme`, `Host`, `Path`) plus `rawQuery`, which the composite literal
in `GetSummary` leaves at its zero value `""`. -/
structure URL where
  scheme : String
  host : String
  path : String
  rawQuery : String
  deriving DecidableEq, Repr

/-- Embedding of `url.URL.String()` for URLs with a scheme, a host, a
path and a raw query and no user/fragment/opaque part:
`scheme://host path` with `?rawQuery` appended when non-empty. (Path
escaping is omitted; the fixed path `/stats/summary/` needs none.) -/
def URL.render (u : URL) : String :=
  u.scheme ++ "://" ++ u.host ++ u.path ++
    (if u.rawQuery = "" then "" else "?" ++ u.rawQuery)

/-- Embedding of `http.Request` restricted to what the client reads:
the URL. The method is always `"GET"` and the body always nil. -/
structure Request where
  url : URL
  deriving DecidableEq, Repr

/-- Embedding of `http.Response` restricted to what the client reads:
`StatusCode`, the status line `Status`, and the body. `bodyRead` models
what `ioutil.ReadAll(response.Body)` yields: either a read error
(message of the `%v`-rendered error) or the fully read body text. -/
structure Response where
  statusCode : Nat
  status : String
  bodyRead : Except String String
  deriving Repr

/-- Embedding of the `kubeletClient` struct. The `client *http.Client`
field is modelled by the `doReq` function argument of the operations:
the only use the source makes of it is calling `Do` (with a fallback to
`http.DefaultClient` when nil, which changes which transport runs but
not the logic embedded here). -/
structure KubeletClient where
  portIsInsecure : Bool
  port : Nat
  deriving DecidableEq, Repr

/-- Effects performed on the scoped response resource, used by the
instrumented variant of `postRequestAndGetValue` to state the resource
discipline: `readAll` is `ioutil.ReadAll(response.Body)` and
`closeBody` is the deferred `response.Body.Close()`. -/
inductive Effect where
  | readAll
  | closeBody
  deriving DecidableEq, Repr

/-- Embedding of `postRequestAndGetValue`. Mirrors the source order:
`client.Do`, then the deferred close is registered, then the body is
read in full, then the status is classified (404 first, then any other
non-200), and only then is the body unmarshalled. The `value`
out-pointer of the source becomes the `value` argument (its content on
entry — `GetSummary` passes a fresh zero value) and the first component
of the returned pair (its content on return: written by `unmarshal` on
the decode path, possibly partially on decode failure, and untouched on
every other path). Error messages reproduce the `fmt.Errorf` format
strings of the source. -/
def postRequestAndGetValue (doReq : Request → Except GoError Response)
    (unmarshal : Summary → String → Summary × Option String)
    (req : Request) (value : Summary) : Summary × Option GoError :=
  match doReq req with
  | Except.error e => (value, some e)
  | Except.ok response =>
    match response.bodyRead with
    | Except.error e =>
        (value, some (GoError.errorf ("failed to read response body - " ++ e)))
    | Except.ok body =>
        if response.statusCode = 404 then
          (value, some (GoError.notFound req.url.render))
        else if response.statusCode ≠ 200 then
          (value, some (GoError.errorf
            ("request failed - " ++ goQuote response.status ++
              ", response: " ++ goQuote body)))
        else
          match unmarshal value body with
          | (v, some e) =>
              (v, some (GoError.errorf
                ("failed to parse output. Response: " ++ goQuote body ++
                  ". Error: " ++ e)))
          | (v, none) => (v, none)

/-- Instrumented embedding of `postRequestAndGetValue` that also records
the effects performed on the response resource, in order. When `Do`
fails no response exists and the trace is empty; when a response is
obtained, `ReadAll` runs first and the deferred `Body.Close()` runs when
the function returns, on every branch. -/
def postRequestAndGetValueTraced (doReq : Request → Except GoError Response)
    (unmarshal : Summary → String → Summary × Option String)
    (req : Request) (value : Summary) :
    (Summary × Option GoError) × List Effect :=
  match doReq req with
  | Except.error e => ((value, some e), [])
  | Except.ok response =>
    match response.bodyRead with
    | Except.error e =>
        ((value, some (GoError.errorf ("failed to read response body - " ++ e))),
          [Effect.readAll, Effect.closeBody])
    | Except.ok body =>
        if response.statusCode = 404 then
          ((value, some (GoError.notFound req.url.render)),
            [Effect.readAll, Effect.closeBody])
        else if response.statusCode ≠ 200 then
          ((value, some (GoError.errorf
              ("request failed - " ++ goQuote response.status ++
                ", response: " ++ goQuote body))),
            [Effect.readAll, Effect.closeBody])
        else
          match unmarshal value body with
          | (v, some e) =>
              ((v, some (GoError.errorf
                  ("failed to parse output. Response: " ++ goQuote body ++
                    ". Error: " ++ e))),
                [Effect.readAll, Effect.closeBody])
          | (v, none) => ((v, none), [Effect.readAll, Effect.closeBody])

/-- URL construction from the body of `GetSummary`: the composite
literal with scheme `https`, host `fmt.Sprintf("%s:%d", host, kc.port)`
and path `/stats/summary/`, then the scheme overwritten to `http` when
`kc.portIsInsecure`. -/
def summaryURL (kc : KubeletClient) (host : String) : URL :=
  let u : URL :=
    { scheme := "https"
      host := host ++ ":" ++ toString kc.port
      path := "/stats/summary/"
      rawQuery := "" }
  if kc.portIsInsecure then { u with scheme := "http" } else u

/-- Embedding of `GetSummary`. `http.NewRequest("GET", url.String(), nil)`
fails only when the URL string does not parse, which strings produced by
`URL.render` here do; the embedding therefore omits that branch (the
only path of the source returning a nil summary). The source then
allocates `summary := &stats.Summary\x7b\x7d`, runs
`postRequestAndGetValue` against it and ends with `return summary, err`:
the returned pointer is always non-nil and carries whatever the call
left in the struct — the decoded payload on success, the zero value on
transport/read/status failures, and whatever `json.Unmarshal` wrote on
decode failures. -/
def GetSummary (kc : KubeletClient) (doReq : Request → Except GoError Response)
    (unmarshal : Summary → String → Summary × Option String) (host : String) :
    Option Summary × Option GoError :=
  let r := postRequestAndGetValue doReq unmarshal
    { url := summaryURL kc host } Summary.zero
  (some r.1, r.2)

/-- Stateful view of `GetSummary`: the source method body contains no
assignment to the fields of the receiver (`portIsInsecure`, `port` and
`client` are only read; the nil-client fallback assigns a local), so the
client value after a call is the client value before it. The embedding
makes this explicit by returning the post-call client with the result. -/
def GetSummaryStateful (kc : KubeletClient)
    (doReq : Request → Except GoError Response)
    (unmarshal : Summary → String → Summary × Option String) (host : String) :
    (Option Summary × Option GoError) × KubeletClient :=
  (GetSummary kc doReq unmarshal host, kc)

/-- Substring containment, used to state that an error message embeds a
given text verbatim. -/
def containsStr (s sub : String) : Prop :=
  ∃ a b, s = a ++ sub ++ b

/-! Concrete fixtures, used by the closed witness and counterexample
theorems: a client on the default secure Kubelet port, scripted
transports returning fixed responses, and scripted unmarshal functions
standing in for `json.Unmarshal` on specific bodies. -/

/-- Client built as by `NewKubeletClient(transport, 10250, false)`. -/
def kcSecure : KubeletClient := { portIsInsecure := false, port := 10250 }

/-- Client built as by `NewKubeletClient(transport, 10255, true)`. -/
def kcInsecure : KubeletClient := { portIsInsecure := true, port := 10255 }

/-- Unmarshal double that rejects every body without writing anything,
as `json.Unmarshal` does on input that is not valid JSON at the top
level. -/
def unmarshalReject : Summary → String → Summary × Option String :=
  fun v _ => (v, some "invalid character in input")

/-- The example summary body from the spec,
`{"node":{"nodeName":"n1"}}` (braces escaped). -/
def jsonBodyN1 : String :=
  "\x7b\"node\":\x7b\"nodeName\":\"n1\"\x7d\x7d"

/-- Unmarshal double that decodes the example body to the summary whose
node name is `n1` and rejects everything else without writing. -/
def unmarshalN1 : Summary → String → Summary × Option String :=
  fun v b =>
    if b = jsonBodyN1 then ({ node := { nodeName := "n1" } }, none)
    else (v, some "invalid character")

/-- Response with status 404 and a readable empty body. -/
def resp404 : Response :=
  { statusCode := 404, status := "404 Not Found", bodyRead := Except.ok "" }

/-- Transport double answering every request with `resp404`. -/
def transport404 : Request → Except GoError Response :=
  fun _ => Except.ok resp404

/-- Response with status 200 and the example summary body. -/
def resp200N1 : Response :=
  { statusCode := 200, status := "200 OK", bodyRead := Except.ok jsonBodyN1 }

/-- Transport double answering every request with `resp200N1`. -/
def transport200N1 : Request → Except GoError Response :=
  fun _ => Except.ok resp200N1

/-- Response with status 200 and the non-JSON body `not json`. -/
def resp200Bad : Response :=
  { statusCode := 200, status := "200 OK", bodyRead := Except.ok "not json" }

/-- Transport double answering every request with `resp200Bad`. -/
def transport200Bad : Request → Except GoError Response :=
  fun _ => Except.ok resp200Bad

/-- Response with status 500 and the body `internal error`. -/
def resp500 : Response :=
  { statusCode := 500, status := "500 Internal Server Error"
    bodyRead := Except.ok "internal error" }

/-- Transport double answering every request with `resp500`. -/
def transport500 : Request → Except GoError Response :=
  fun _ => Except.ok resp500

/-- Response with status 404 whose body fails to read. -/
def resp404ReadFail : Response :=
  { statusCode := 404, status := "404 Not Found"
    bodyRead := Except.error "unexpected EOF" }

/-- Transport double answering every request with `resp404ReadFail`. -/
def transport404ReadFail : Request → Except GoError Response :=
  fun _ => Except.ok resp404ReadFail

/-- A body containing a newline, which `%q` renders as the two-character
escape and whose raw text therefore does not occur in the rendered
message. -/
def bodyNL : String := "a\nb"

/-- Response with status 200 and the newline-containing body. -/
def resp200NL : Response :=
  { statusCode := 200, status := "200 OK", bodyRead := Except.ok bodyNL }

/-- Transport double answering every request with `resp200NL`. -/
def transport200NL : Request → Except GoError Response :=
  fun _ => Except.ok resp200NL

/-- Response with status 500 and the newline-containing body. -/
def resp500NL : Response :=
  { statusCode := 500, status := "500 Internal Server Error"
    bodyRead := Except.ok bodyNL }

/-- Transport double answering every request with `resp500NL`. -/
def transport500NL : Request → Except GoError Response :=
  fun _ => Except.ok resp500NL

/-! Helper lemmas shared by the claim theorems. -/

/-- Characters kept verbatim by `goQuoteChar` render as themselves. -/
theorem goQuoteChar_plain (c : Char) (h : goQuotePlain c) :
    goQuoteChar c = Char.toString c := by
  obtain ⟨hlo, hhi, hq, hbs⟩ := h
  have h7 : c ≠ Char.ofNat 7 := by rintro rfl; revert hlo; decide
  have h8 : c ≠ Char.ofNat 8 := by rintro rfl; revert hlo; decide
  have hf : c ≠ Char.ofNat 12 := by rintro rfl; revert hlo; decide
  have hn : c ≠ '\n' := by rintro rfl; revert hlo; decide
  have hr : c ≠ '\r' := by rintro rfl; revert hlo; decide
  have ht : c ≠ '\t' := by rintro rfl; revert hlo; decide
  have hv : c ≠ Char.ofNat 11 := by rintro rfl; revert hlo; decide
  have hx : ¬(c.toNat < 32 ∨ c.toNat = 127) := by omega
  simp [goQuoteChar, hq, hbs, h7, h8, hf, hn, hr, ht, hv, hx]

/-- Quoting a list of verbatim characters is the identity on the text. -/
theorem goQuoteAux_plain (l : List Char) (h : ∀ c ∈ l, goQuotePlain c) :
    goQuoteAux l = String.mk l := by
  induction l with
  | nil => rfl
  | cons c cs ih =>
    rw [goQuoteAux, goQuoteChar_plain c (h c (List.mem_cons_self c cs)),
      ih (fun x hx => h x (List.mem_cons_of_mem c hx))]
    rfl

/-- Go `%q` of a string of verbatim characters is the string wrapped in
double quotes, with the text embedded unchanged. -/
theorem goQuote_plain (s : String) (h : ∀ c ∈ s.data, goQuotePlain c) :
    goQuote s = "\"" ++ s ++ "\"" := by
  rw [goQuote, goQuoteAux_plain s.data h]

/-- Containment witness built at the character-list level, avoiding
string-literal reassociation. -/
theorem containsStr_of_data (s sub : String) (a b : List Char)
    (h : s.data = a ++ (sub.data ++ b)) : containsStr s sub := by
  refine ⟨String.mk a, String.mk b, String.ext ?_⟩
  simpa using h

/-- Every character of a contained substring occurs in the containing
string. -/
theorem mem_of_containsStr (s sub : String) (h : containsStr s sub) :
    ∀ c ∈ sub.data, c ∈ s.data := by
  obtain ⟨a, b, rfl⟩ := h
  intro c hc
  simp [hc]

/-- Evaluation of `postRequestAndGetValue` when `Do` itself fails: the
transport error propagates and the value is untouched. -/
theorem postRequest_eval_doFail (doReq : Request → Except GoError Response)
    (um : Summary → String → Summary × Option String) (req : Request)
    (value : Summary) (e : GoError) (hdo : doReq req = Except.error e) :
    postRequestAndGetValue doReq um req value = (value, some e) := by
  simp [postRequestAndGetValue, hdo]

/-- Evaluation of `postRequestAndGetValue` on a 404 response with a
readable body: the value is untouched. -/
theorem postRequest_eval_404 (doReq : Request → Except GoError Response)
    (um : Summary → String → Summary × Option String) (req : Request)
    (resp : Response) (value : Summary) (body : String)
    (hdo : doReq req = Except.ok resp)
    (hst : resp.statusCode = 404) (hbody : resp.bodyRead = Except.ok body) :
    postRequestAndGetValue doReq um req value =
      (value, some (GoError.notFound req.url.render)) := by
  simp [postRequestAndGetValue, hdo, hbody, hst]

/-- Evaluation of `postRequestAndGetValue` on a response that is neither
200 nor 404, with a readable body: the value is untouched. -/
theorem postRequest_eval_non200 (doReq : Request → Except GoError Response)
    (um : Summary → String → Summary × Option String) (req : Request)
    (resp : Response) (value : Summary) (body : String)
    (hdo : doReq req = Except.ok resp)
    (h404 : resp.statusCode ≠ 404) (h200 : resp.statusCode ≠ 200)
    (hbody : resp.bodyRead = Except.ok body) :
    postRequestAndGetValue doReq um req value =
      (value, some (GoError.errorf
        ("request failed - " ++ goQuote resp.status ++
          ", response: " ++ goQuote body))) := by
  simp [postRequestAndGetValue, hdo, hbody, h404, h200]

/-- Evaluation of `postRequestAndGetValue` on a 200 response with a
readable body that unmarshals successfully. -/
theorem postRequest_eval_200_ok (doReq : Request → Except GoError Response)
    (um : Summary → String → Summary × Option String) (req : Request)
    (resp : Response) (value : Summary) (body : String) (s : Summary)
    (hdo : doReq req = Except.ok resp)
    (hst : resp.statusCode = 200) (hbody : resp.bodyRead = Except.ok body)
    (hum : um value body = (s, none)) :
    postRequestAndGetValue doReq um req value = (s, none) := by
  simp [postRequestAndGetValue, hdo, hbody, hst, hum]

/-- Evaluation of `postRequestAndGetValue` on a 200 response with a
readable body that fails to unmarshal: the value holds whatever the
unmarshal wrote. -/
theorem postRequest_eval_200_decodeFail
    (doReq : Request → Except GoError Response)
    (um : Summary → String → Summary × Option String) (req : Request)
    (resp : Response) (value : Summary) (body : String) (v : Summary)
    (pe : String) (hdo : doReq req = Except.ok resp)
    (hst : resp.statusCode = 200) (hbody : resp.bodyRead = Except.ok body)
    (hum : um value body = (v, some pe)) :
    postRequestAndGetValue doReq um req value =
      (v, some (GoError.errorf
        ("failed to parse output. Response: " ++ goQuote body ++
          ". Error: " ++ pe))) := by
  simp [postRequestAndGetValue, hdo, hbody, hst, hum]

/-- Evaluation of `postRequestAndGetValue` when reading the body fails:
the read error wins regardless of the status code and the value is
untouched. -/
theorem postRequest_eval_readFail (doReq : Request → Except GoError Response)
    (um : Summary → String → Summary × Option String) (req : Request)
    (resp : Response) (value : Summary) (e : String)
    (hdo : doReq req = Except.ok resp)
    (hbody : resp.bodyRead = Except.error e) :
    postRequestAndGetValue doReq um req value =
      (value, some (GoError.errorf ("failed to read response body - " ++ e))) := by
  simp [postRequestAndGetValue, hdo, hbody]

/-- Inversion: a nil error out of `postRequestAndGetValue` means a
response was obtained with status 200, its body was read in full, and
the unmarshal fully succeeded, producing exactly the returned value. -/
theorem postRequest_success_inversion
    (doReq : Request → Except GoError Response)
    (um : Summary → String → Summary × Option String) (req : Request)
    (value : Summary)
    (h : (postRequestAndGetValue doReq um req value).2 = none) :
    ∃ resp body, doReq req = Except.ok resp ∧
      resp.bodyRead = Except.ok body ∧ resp.statusCode = 200 ∧
      um value body = ((postRequestAndGetValue doReq um req value).1, none) := by
  cases hdo : doReq req with
  | error e =>
    rw [postRequest_eval_doFail doReq um req value e hdo] at h
    simp at h
  | ok resp =>
    cases hb : resp.bodyRead with
    | error e =>
      rw [postRequest_eval_readFail doReq um req resp value e hdo hb] at h
      simp at h
    | ok body =>
      by_cases h404 : resp.statusCode = 404
      · rw [postRequest_eval_404 doReq um req resp value body hdo h404 hb] at h
        simp at h
      · by_cases h200 : resp.statusCode = 200
        · cases hu : um value body with
          | mk v e =>
            cases e with
            | some pe =>
              rw [postRequest_eval_200_decodeFail doReq um req resp value body
                v pe hdo h200 hb hu] at h
              simp at h
            | none =>
              refine ⟨resp, body, rfl, hb, h200, ?_⟩
              rw [postRequest_eval_200_ok doReq um req resp value body v
                hdo h200 hb hu]
              exact hu
        · rw [postRequest_eval_non200 doReq um req resp value body
            hdo h404 h200 hb] at h
          simp at h

/-- Unfolding of `GetSummary` through `summaryURL` and
`postRequestAndGetValue` on the fresh zero-value struct. -/
theorem getSummary_eq (kc : KubeletClient)
    (doReq : Request → Except GoError Response)
    (um : Summary → String → Summary × Option String) (host : String) :
    GetSummary kc doReq um host =
      (some (postRequestAndGetValue doReq um
          { url := summaryURL kc host } Summary.zero).1,
        (postRequestAndGetValue doReq um
          { url := summaryURL kc host } Summary.zero).2) := rfl

/-- C1: if the transport returns a response with status exactly 404 for
the constructed request and the body is readable, then `GetSummary`
returns the `NotFoundError` variant carrying the full request URL string
as its endpoint, and `IsNotFoundError` holds of that error. -/
theorem getSummary_notFound_on_404 (kc : KubeletClient)
    (doReq : Request → Except GoError Response)
    (um : Summary → String → Summary × Option String) (host : String)
    (resp : Response) (body : String)
    (hdo : doReq { url := summaryURL kc host } = Except.ok resp)
    (hst : resp.statusCode = 404)
    (hbody : resp.bodyRead = Except.ok body) :
    (GetSummary kc doReq um host).2 =
        some (GoError.notFound (summaryURL kc host).render) ∧
      IsNotFoundError (GetSummary kc doReq um host).2 = true := by
  rw [getSummary_eq,
    postRequest_eval_404 doReq um _ resp Summary.zero body hdo hst hbody]
  exact ⟨rfl, rfl⟩

/-- C1 witness: a client on port 10250 against a transport answering 404
with an empty readable body. -/
theorem getSummary_notFound_on_404_witness :
    (GetSummary kcSecure transport404 unmarshalReject "node1").2 =
        some (GoError.notFound (summaryURL kcSecure "node1").render) ∧
      IsNotFoundError (GetSummary kcSecure transport404 unmarshalReject "node1").2 = true :=
  getSummary_notFound_on_404 kcSecure transport404 unmarshalReject "node1"
    resp404 "" rfl rfl rfl

/-- C2: the URL `GetSummary` constructs has scheme `http` iff the client
was built with `portIsInsecure = true` and `https` otherwise, host equal
to the given host followed by a colon and the configured port, path
exactly `/stats/summary/`, and no query parameters; `GetSummary` issues
its one request at exactly that URL. -/
theorem getSummary_url_shape (kc : KubeletClient) (host : String) :
    (summaryURL kc host).scheme =
        (if kc.portIsInsecure then "http" else "https") ∧
      ((summaryURL kc host).scheme = "http" ↔ kc.portIsInsecure = true) ∧
      (summaryURL kc host).host = host ++ ":" ++ toString kc.port ∧
      (summaryURL kc host).path = "/stats/summary/" ∧
      (summaryURL kc host).rawQuery = "" ∧
      ∀ (doReq : Request → Except GoError Response)
        (um : Summary → String → Summary × Option String),
        GetSummary kc doReq um host =
          (some (postRequestAndGetValue doReq um
              { url := summaryURL kc host } Summary.zero).1,
            (postRequestAndGetValue doReq um
              { url := summaryURL kc host } Summary.zero).2) := by
  refine ⟨?_, ?_, ?_, ?_, ?_, fun doReq um => rfl⟩ <;>
    · unfold summaryURL
      cases h : kc.portIsInsecure <;> simp [h]

/-- C2 witness: the insecure client on port 10255 for host `node1`. -/
theorem getSummary_url_shape_witness :
    (summaryURL kcInsecure "node1").scheme =
        (if kcInsecure.portIsInsecure then "http" else "https") ∧
      ((summaryURL kcInsecure "node1").scheme = "http" ↔
        kcInsecure.portIsInsecure = true) ∧
      (summaryURL kcInsecure "node1").host = "node1" ++ ":" ++ toString kcInsecure.port ∧
      (summaryURL kcInsecure "node1").path = "/stats/summary/" ∧
      (summaryURL kcInsecure "node1").rawQuery = "" ∧
      ∀ (doReq : Request → Except GoError Response)
        (um : Summary → String → Summary × Option String),
        GetSummary kcInsecure doReq um "node1" =
          (some (postRequestAndGetValue doReq um
              { url := summaryURL kcInsecure "node1" } Summary.zero).1,
            (postRequestAndGetValue doReq um
              { url := summaryURL kcInsecure "node1" } Summary.zero).2) :=
  getSummary_url_shape kcInsecure "node1"

/-- C3: `IsNotFoundError` is true exactly on a non-nil error whose
top-level variant is `notFound`; it is false on nil, false on every
other variant, and false on an error that wraps a `notFound` one level
down. -/
theorem isNotFoundError_iff :
    IsNotFoundError none = false ∧
      (∀ e : Option GoError,
        IsNotFoundError e = true ↔ ∃ ep, e = some (GoError.notFound ep)) ∧
      (∀ msg ep,
        IsNotFoundError (some (GoError.wrapped msg (GoError.notFound ep))) = false) ∧
      (∀ msg, IsNotFoundError (some (GoError.errorf msg)) = false) := by
  refine ⟨rfl, ?_, fun _ _ => rfl, fun _ => rfl⟩
  intro e
  match e with
  | none => simp [IsNotFoundError]
  | some (GoError.notFound ep) => simp [IsNotFoundError]
  | some (GoError.errorf msg) => simp [IsNotFoundError]
  | some (GoError.wrapped msg inner) => simp [IsNotFoundError]

/-- C3 witness: concrete evaluations on nil, a `notFound`, and a wrapped
`notFound`. -/
theorem isNotFoundError_iff_witness :
    IsNotFoundError none = false ∧
      IsNotFoundError (some (GoError.notFound "https://node1:10250/stats/summary/")) = true ∧
      IsNotFoundError (some (GoError.wrapped "outer"
        (GoError.notFound "https://node1:10250/stats/summary/"))) = false :=
  ⟨isNotFoundError_iff.1,
    (isNotFoundError_iff.2.1 _).mpr ⟨"https://node1:10250/stats/summary/", rfl⟩,
    isNotFoundError_iff.2.2.1 "outer" "https://node1:10250/stats/summary/"⟩

/-- C4 counterexample: against a transport answering 500, `GetSummary`
returns a non-nil error AND a non-nil summary at the same time — the
source ends with `return summary, err` on the pre-allocated
`&stats.Summary\x7b\x7d`, so the result component accompanying a
non-nil error is not nil/absent (on this pre-decode failure path it is
the untouched zero value). -/
theorem getSummary_error_and_result_both_present :
    (GetSummary kcSecure transport500 unmarshalReject "node1").1 = some Summary.zero ∧
      (GetSummary kcSecure transport500 unmarshalReject "node1").2.isSome = true :=
  ⟨rfl, rfl⟩

/-- C4 amended: the result component of `GetSummary` is always non-nil,
even alongside a non-nil error; and the error is nil exactly on the
fully successful path — a response was obtained with status 200, its
body was read in full, and the unmarshal fully succeeded, the delivered
summary being exactly the value the unmarshal produced (no partial
decode is ever delivered as success). -/
theorem getSummary_result_error_relation (kc : KubeletClient)
    (doReq : Request → Except GoError Response)
    (um : Summary → String → Summary × Option String) (host : String) :
    (∃ s, (GetSummary kc doReq um host).1 = some s) ∧
      ((GetSummary kc doReq um host).2 = none →
        ∃ resp body,
          doReq { url := summaryURL kc host } = Except.ok resp ∧
            resp.bodyRead = Except.ok body ∧ resp.statusCode = 200 ∧
            um Summary.zero body =
              ((postRequestAndGetValue doReq um
                { url := summaryURL kc host } Summary.zero).1, none) ∧
            (GetSummary kc doReq um host).1 =
              some (postRequestAndGetValue doReq um
                { url := summaryURL kc host } Summary.zero).1) := by
  refine ⟨⟨_, rfl⟩, fun h => ?_⟩
  have h' : (postRequestAndGetValue doReq um
      { url := summaryURL kc host } Summary.zero).2 = none := h
  obtain ⟨resp, body, hdo, hb, hst, hum⟩ :=
    postRequest_success_inversion doReq um { url := summaryURL kc host }
      Summary.zero h'
  exact ⟨resp, body, hdo, hb, hst, hum, rfl⟩

/-- C4 amended witness: on a successful 200 fetch the nil error comes
with exactly the decoded summary. -/
theorem getSummary_result_error_relation_witness :
    ∃ resp body,
      transport200N1 { url := summaryURL kcSecure "node1" } = Except.ok resp ∧
        resp.bodyRead = Except.ok body ∧ resp.statusCode = 200 ∧
        unmarshalN1 Summary.zero body =
          ((postRequestAndGetValue transport200N1 unmarshalN1
            { url := summaryURL kcSecure "node1" } Summary.zero).1, none) ∧
        (GetSummary kcSecure transport200N1 unmarshalN1 "node1").1 =
          some (postRequestAndGetValue transport200N1 unmarshalN1
            { url := summaryURL kcSecure "node1" } Summary.zero).1 :=
  (getSummary_result_error_relation kcSecure transport200N1 unmarshalN1 "node1").2
    (by decide)

/-- C5: if the transport returns status 200 with a readable body that
unmarshals to a summary `s`, then `GetSummary` returns exactly `s` with
a nil error (for the example body of the spec, a summary whose node name
is `n1`). -/
theorem getSummary_200_decodes (kc : KubeletClient)
    (doReq : Request → Except GoError Response)
    (um : Summary → String → Summary × Option String) (host : String)
    (resp : Response) (body : String) (s : Summary)
    (hdo : doReq { url := summaryURL kc host } = Except.ok resp)
    (hst : resp.statusCode = 200)
    (hbody : resp.bodyRead = Except.ok body)
    (hum : um Summary.zero body = (s, none)) :
    GetSummary kc doReq um host = (some s, none) := by
  rw [getSummary_eq,
    postRequest_eval_200_ok doReq um _ resp Summary.zero body s hdo hst hbody hum]

/-- C5 witness: status 200 with the example body decodes to the summary
whose node name is `n1`, with a nil error. -/
theorem getSummary_200_decodes_witness :
    GetSummary kcSecure transport200N1 unmarshalN1 "node1" =
      (some { node := { nodeName := "n1" } }, none) :=
  getSummary_200_decodes kcSecure transport200N1 unmarshalN1 "node1"
    resp200N1 jsonBodyN1 { node := { nodeName := "n1" } } rfl rfl rfl rfl

/-- C6 counterexample: at the concrete body containing a newline, the
decode-failure message holds the `%q`-escaped form `\n`, and the raw
body text is NOT a substring of the message, refuting the unconditional
raw-body-containment reading of the claim. -/
theorem getSummary_decode_error_counterexample :
    (GetSummary kcSecure transport200NL unmarshalReject "node1").2 =
        some (GoError.errorf ("failed to parse output. Response: " ++
          goQuote bodyNL ++ ". Error: " ++ "invalid character in input")) ∧
      ¬ containsStr ("failed to parse output. Response: " ++
          goQuote bodyNL ++ ". Error: " ++ "invalid character in input") bodyNL := by
  refine ⟨rfl, fun h => ?_⟩
  exact absurd (mem_of_containsStr _ _ h '\n' (by decide)) (by decide)

/-- C6 amended: if the transport returns status 200 with a readable body
that fails to unmarshal, `GetSummary` returns a non-NotFound error whose
message is the decode-error format embedding the `%q`-quoted body and,
verbatim, the underlying parse error; the raw body text appears verbatim
exactly when it needs no `%q` escapes (as the example `not json` does
not), while bodies with characters `%q` escapes appear in escaped form. -/
theorem getSummary_decode_error (kc : KubeletClient)
    (doReq : Request → Except GoError Response)
    (um : Summary → String → Summary × Option String) (host : String)
    (resp : Response) (body pe : String) (v : Summary)
    (hdo : doReq { url := summaryURL kc host } = Except.ok resp)
    (hst : resp.statusCode = 200)
    (hbody : resp.bodyRead = Except.ok body)
    (hum : um Summary.zero body = (v, some pe))
    (hplain : ∀ c ∈ body.data, goQuotePlain c) :
    ∃ msg,
      (GetSummary kc doReq um host).2 = some (GoError.errorf msg) ∧
        msg = "failed to parse output. Response: " ++ goQuote body ++
          ". Error: " ++ pe ∧
        IsNotFoundError (GetSummary kc doReq um host).2 = false ∧
        containsStr msg body ∧ containsStr msg pe := by
  have hpr := postRequest_eval_200_decodeFail doReq um
    { url := summaryURL kc host } resp Summary.zero body v pe hdo hst hbody hum
  refine ⟨_, ?_, rfl, ?_, ?_, ?_⟩
  · rw [getSummary_eq, hpr]
  · rw [getSummary_eq, hpr]; rfl
  · refine containsStr_of_data _ _
      ("failed to parse output. Response: ".data ++ "\"".data)
      ("\"".data ++ ". Error: ".data ++ pe.data) ?_
    rw [goQuote_plain body hplain]
    simp
  · exact ⟨"failed to parse output. Response: " ++ goQuote body ++ ". Error: ",
      "", by simp [String.append_assoc]⟩

/-- C6 amended witness: status 200 with the non-JSON body `not json`
against a rejecting unmarshal. -/
theorem getSummary_decode_error_witness :
    ∃ msg,
      (GetSummary kcSecure transport200Bad unmarshalReject "node1").2 =
          some (GoError.errorf msg) ∧
        msg = "failed to parse output. Response: " ++ goQuote "not json" ++
          ". Error: " ++ "invalid character in input" ∧
        IsNotFoundError
          (GetSummary kcSecure transport200Bad unmarshalReject "node1").2 = false ∧
        containsStr msg "not json" ∧ containsStr msg "invalid character in input" :=
  getSummary_decode_error kcSecure transport200Bad unmarshalReject "node1"
    resp200Bad "not json" "invalid character in input" Summary.zero
    rfl rfl rfl rfl (by decide)

/-- C7 counterexample: at the concrete 500 response whose body contains
a newline, the request-failed message holds the `%q`-escaped form `\n`,
and the raw body text is NOT a substring of the message, refuting the
unconditional full-body-containment reading of the claim. -/
theorem getSummary_http_error_counterexample :
    (GetSummary kcSecure transport500NL unmarshalReject "node1").2 =
        some (GoError.errorf ("request failed - " ++
          goQuote "500 Internal Server Error" ++ ", response: " ++
          goQuote bodyNL)) ∧
      ¬ containsStr ("request failed - " ++
          goQuote "500 Internal Server Error" ++ ", response: " ++
          goQuote bodyNL) bodyNL := by
  refine ⟨rfl, fun h => ?_⟩
  exact absurd (mem_of_containsStr _ _ h '\n' (by decide)) (by decide)

/-- C7 amended: if the transport returns a response whose status is
neither 200 nor 404 with a readable body, `GetSummary` returns a
non-NotFound error whose message is the request-failed format embedding
the `%q`-quoted status line and the `%q`-quoted full body; status line
and body appear verbatim exactly when they need no `%q` escapes (as the
examples `500 Internal Server Error` and `internal error` do not), while
texts with characters `%q` escapes appear in escaped form. -/
theorem getSummary_http_error (kc : KubeletClient)
    (doReq : Request → Except GoError Response)
    (um : Summary → String → Summary × Option String) (host : String)
    (resp : Response) (body : String)
    (hdo : doReq { url := summaryURL kc host } = Except.ok resp)
    (h404 : resp.statusCode ≠ 404) (h200 : resp.statusCode ≠ 200)
    (hbody : resp.bodyRead = Except.ok body)
    (hplainStatus : ∀ c ∈ resp.status.data, goQuotePlain c)
    (hplainBody : ∀ c ∈ body.data, goQuotePlain c) :
    ∃ msg,
      (GetSummary kc doReq um host).2 = some (GoError.errorf msg) ∧
        msg = "request failed - " ++ goQuote resp.status ++
          ", response: " ++ goQuote body ∧
        IsNotFoundError (GetSummary kc doReq um host).2 = false ∧
        containsStr msg resp.status ∧ containsStr msg body := by
  have hpr := postRequest_eval_non200 doReq um
    { url := summaryURL kc host } resp Summary.zero body hdo h404 h200 hbody
  refine ⟨_, ?_, rfl, ?_, ?_, ?_⟩
  · rw [getSummary_eq, hpr]
  · rw [getSummary_eq, hpr]; rfl
  · refine containsStr_of_data _ _
      ("request failed - ".data ++ "\"".data)
      ("\"".data ++ ", response: ".data ++ (goQuote body).data) ?_
    rw [goQuote_plain resp.status hplainStatus]
    simp
  · refine containsStr_of_data _ _
      ("request failed - ".data ++ (goQuote resp.status).data ++
        ", response: ".data ++ "\"".data)
      ("\"".data) ?_
    rw [goQuote_plain body hplainBody]
    simp

/-- C7 amended witness: status 500 with status line
`500 Internal Server Error` and body `internal error`. -/
theorem getSummary_http_error_witness :
    ∃ msg,
      (GetSummary kcSecure transport500 unmarshalReject "node1").2 =
          some (GoError.errorf msg) ∧
        msg = "request failed - " ++ goQuote resp500.status ++
          ", response: " ++ goQuote "internal error" ∧
        IsNotFoundError
          (GetSummary kcSecure transport500 unmarshalReject "node1").2 = false ∧
        containsStr msg resp500.status ∧ containsStr msg "internal error" :=
  getSummary_http_error kcSecure transport500 unmarshalReject "node1"
    resp500 "internal error" rfl (by decide) (by decide) rfl
    (by decide) (by decide)

/-- C8: on every path of `postRequestAndGetValue` in which a response was
obtained from the transport, the body is read (in full, when the read
result is a full body as on the four classified branches) and the
deferred close of the response body runs before the function returns:
the effect trace is exactly read-then-close, and the instrumented
function computes the same result as the plain one. -/
theorem postRequest_resource_discipline
    (doReq : Request → Except GoError Response)
    (um : Summary → String → Summary × Option String) (req : Request)
    (value : Summary) (resp : Response)
    (hdo : doReq req = Except.ok resp) :
    (postRequestAndGetValueTraced doReq um req value).2 =
        [Effect.readAll, Effect.closeBody] ∧
      (postRequestAndGetValueTraced doReq um req value).1 =
        postRequestAndGetValue doReq um req value := by
  constructor <;>
  · simp only [postRequestAndGetValueTraced, postRequestAndGetValue, hdo]
    cases hb : resp.bodyRead with
    | error e => simp
    | ok body =>
      by_cases h4 : resp.statusCode = 404
      · simp [h4]
      · by_cases h2 : resp.statusCode = 200
        · cases hu : um value body with
          | mk v e =>
            cases e with
            | some pe => simp [h4, h2, hu]
            | none => simp [h4, h2, hu]
        · simp [h4, h2]

/-- C8 witness: the successful 200 fetch of the example body. -/
theorem postRequest_resource_discipline_witness :
    (postRequestAndGetValueTraced transport200N1 unmarshalN1
          { url := summaryURL kcSecure "node1" } Summary.zero).2 =
        [Effect.readAll, Effect.closeBody] ∧
      (postRequestAndGetValueTraced transport200N1 unmarshalN1
          { url := summaryURL kcSecure "node1" } Summary.zero).1 =
        postRequestAndGetValue transport200N1 unmarshalN1
          { url := summaryURL kcSecure "node1" } Summary.zero :=
  postRequest_resource_discipline transport200N1 unmarshalN1
    { url := summaryURL kcSecure "node1" } Summary.zero resp200N1 rfl

/-- C9: `GetSummary` is stateless across calls: a call leaves the client
unchanged, and a second call with the same host against the same
unchanged transport and unmarshal computes the same result as the first. -/
theorem getSummary_stateless (kc : KubeletClient)
    (doReq : Request → Except GoError Response)
    (um : Summary → String → Summary × Option String) (host : String) :
    (GetSummaryStateful kc doReq um host).2 = kc ∧
      GetSummaryStateful (GetSummaryStateful kc doReq um host).2 doReq um host =
        GetSummaryStateful kc doReq um host := ⟨rfl, rfl⟩

/-- C10: the body is read before the status is classified, so on a 404
response whose body fails to read, `GetSummary` returns the generic
body-read error containing the underlying read error, not the
`NotFoundError` variant, and `IsNotFoundError` is false on it. -/
theorem getSummary_read_error_beats_404 (kc : KubeletClient)
    (doReq : Request → Except GoError Response)
    (um : Summary → String → Summary × Option String) (host : String)
    (resp : Response) (e : String)
    (hdo : doReq { url := summaryURL kc host } = Except.ok resp)
    (hst : resp.statusCode = 404)
    (hbody : resp.bodyRead = Except.error e) :
    ∃ msg,
      (GetSummary kc doReq um host).2 = some (GoError.errorf msg) ∧
        msg = "failed to read response body - " ++ e ∧
        containsStr msg e ∧
        IsNotFoundError (GetSummary kc doReq um host).2 = false := by
  have hpr := postRequest_eval_readFail doReq um
    { url := summaryURL kc host } resp Summary.zero e hdo hbody
  refine ⟨_, ?_, rfl,
    ⟨"failed to read response body - ", "", by simp [String.append_assoc]⟩, ?_⟩
  · rw [getSummary_eq, hpr]
  · rw [getSummary_eq, hpr]; rfl

/-- C10 witness: a 404 response whose body read fails with
`unexpected EOF`. -/
theorem getSummary_read_error_beats_404_witness :
    ∃ msg,
      (GetSummary kcSecure transport404ReadFail unmarshalReject "node1").2 =
          some (GoError.errorf msg) ∧
        msg = "failed to read response body - " ++ "unexpected EOF" ∧
        containsStr msg "unexpected EOF" ∧
        IsNotFoundError
          (GetSummary kcSecure transport404ReadFail unmarshalReject "node1").2 =
            false :=
  getSummary_read_error_beats_404 kcSecure transport404ReadFail unmarshalReject
    "node1" resp404ReadFail "unexpected EOF" rfl rfl rfl
